import Mathlib

/-!
# fog-math: verification of the math document model and its schema

This file embeds the two source modules of the `fog-math` repository:

* `src/math.rs` — the recursive math document model (`Element`, `MathElement`,
  `Attributes`, `Operator`, `ResolvedOperator`, `Length`, …) together with its
  serde serialization attributes (`skip_serializing_if`, `default`), embedded
  as Lean inductive types plus explicit serialization and deserialization
  functions.
* `src/schema.rs` — the fog-pack schema built by `schema_doc()`, embedded as a
  `Validator` description plus a fuel-indexed validation function.

The fog-pack crate itself (value encoding and validator engine) is not part of
the repository; those semantics are modelled from the specification: the wire
format has map/array/string/integer/float32/boolean primitives, unit enum
variants encode as strings, payload-carrying variants as single-entry maps,
fields equal to their declared default are elided, and validators check the
declarative constraints (required/optional fields, value domains, closed enum
variant sets, named recursive references).
-/

set_option maxHeartbeats 4000000

namespace FogMath

/-- 32-bit float values are carried opaquely by the format (no arithmetic is
performed anywhere in the repository), so an `f32` is modelled by its bit
pattern. -/
structure F32 where
  bits : Nat
deriving DecidableEq, Repr

/-- Rust `u32`: a natural number below 2^32. -/
def U32 := { n : Nat // n < 4294967296 }

instance : DecidableEq U32 := fun a b =>
  decidable_of_iff (a.val = b.val) Subtype.ext_iff.symm

/-- Rust `i32`: an integer in `[-2^31, 2^31)`. -/
def I32 := { z : Int // -2147483648 ≤ z ∧ z < 2147483648 }

instance : DecidableEq I32 := fun a b =>
  decidable_of_iff (a.val = b.val) Subtype.ext_iff.symm

/-- Modelled from the spec: the serialized document format is "a
self-describing structured encoding (map/array/enum/string/number
primitives)"; fog-pack's value type is not in the repository.  Unit enum
variants are encoded as strings and payload-carrying variants as single-entry
maps, matching the schema's use of `StrValidator` membership sets for the
unit-only `Variant` enum and `EnumValidator` for payload-carrying enums. -/
inductive Value where
  | bool (b : Bool)
  | int (n : Int)
  | f32 (x : F32)
  | str (s : String)
  | arr (xs : List Value)
  | map (kvs : List (String × Value))

/-- Character variant types (`src/math.rs`, `enum Variant`). -/
inductive Variant where
  | Normal | Bold | Italic | BoldItalic | DoubleStruck | BoldFraktur
  | Script | BoldScript | Fraktur | SansSerif | BoldSansSerif
  | SansSerifItalic | SansSerifBoldItalic | Monospace | Initial
  | Tailed | Looped | Stretched
deriving DecidableEq, Repr

/-- Script level adjustment (`src/math.rs`, `enum ScriptLevel`). -/
inductive ScriptLevel where
  | Add (v : I32)
  | Set (v : U32)
deriving DecidableEq

/-- Form of the operation (`src/math.rs`, `enum OpForm`). -/
inductive OpForm where
  | Prefix | Postfix | Infix
deriving DecidableEq, Repr

/-- A font-relative length (`src/math.rs`, `enum Length`). -/
inductive Length where
  | Em (x : F32)
  | Ex (x : F32)
deriving DecidableEq, Repr

/-- A font-relative length or a fraction of another length
(`src/math.rs`, `enum LengthOrFraction`). -/
inductive LengthOrFraction where
  | Em (x : F32)
  | Ex (x : F32)
  | Frac (x : F32)
deriving DecidableEq, Repr

/-- A blank space (`src/math.rs`, `struct Space`); all fields `#[serde(default,
skip_serializing_if = "Option::is_none")]` via the struct-level default. -/
structure Space where
  width : Option Length
  height : Option Length
  depth : Option Length
deriving DecidableEq

/-- Unresolved operator (`src/math.rs`, `struct Operator`): the text `t` plus
eleven optional override fields, all elided when `None`. -/
structure Operator where
  t : Char
  form : Option OpForm
  max_size : Option LengthOrFraction
  min_size : Option LengthOrFraction
  lspace : Option LengthOrFraction
  rspace : Option LengthOrFraction
  stretchy : Option Bool
  symmetric : Option Bool
  large_op : Option Bool
  movable_limits : Option Bool
  separator : Option Bool
  fence : Option Bool
deriving DecidableEq

/-- Resolved operator (`src/math.rs`, `struct ResolvedOperator`): structurally
like `Operator` but every field mandatory and lengths absolute. -/
structure ResolvedOperator where
  t : Char
  form : OpForm
  max_size : Length
  min_size : Length
  lspace : Length
  rspace : Length
  stretchy : Bool
  symmetric : Bool
  large_op : Bool
  movable_limits : Bool
  separator : Bool
  fence : Bool
deriving DecidableEq

/-- Global element attributes (`src/math.rs`, `struct Attributes`).  The
`data` field holds an open-ended map of arbitrary fog-pack values, modelled
as an association list. -/
structure Attributes where
  «class» : List String
  rtl : Bool
  display_style : Option Bool
  variant : Option Variant
  script_level : Option ScriptLevel
  data : Option (List (String × Value))

mutual

/-- A math element with optional attributes (`src/math.rs`, `struct Element`):
field `e` is the element, field `a` its optional attributes. -/
inductive Element where
  | mk (e : MathElement) (a : Option Attributes)

/-- The math element cases (`src/math.rs`, `enum MathElement`), mirroring
MathML.  Constructor and field names follow the source. -/
inductive MathElement where
  | Op (c : Char)
  | Oper (o : Operator)
  | ResolvedOper (o : ResolvedOperator)
  | Text (s : String)
  | Id (t : String) (normal : Bool)
  | Num (s : String)
  | Err (s : String)
  | Space (s : FogMath.Space)
  | Str (s : String)
  | Phantom (elems : List Element)
  | Row (elems : List Element)
  | Padding (p : Padding)
  | Frac (line_thickness : Option F32) (num den : Element)
  | Sqrt (e : Element)
  | Root (base index : Element)
  | Sup (base sup : Element)
  | Sub (base sub : Element)
  | SubSup (base sub sup : Element)
  | Over (base over : Element) (accent : Bool)
  | Under (base under : Element) (accent_under : Bool)
  | UnderOver (base under over : Element) (accent accent_under : Bool)
  | MultiScript (base : Element) (post pre : List Pair)
  | Table (rows : List TableRow)

/-- Padding around elements (`src/math.rs`, `struct Padding`). -/
inductive Padding where
  | mk (elems : List Element) (width height depth lspace voffset : Option Length)

/-- A row in a table (`src/math.rs`, `struct TableRow`). -/
inductive TableRow where
  | mk (cells : List TableCell) (a : Option Attributes)

/-- A cell in a table (`src/math.rs`, `struct TableCell`); span counts are
`u32` with default 1. -/
inductive TableCell where
  | mk (col_span row_span : U32) (elems : List Element) (a : Option Attributes)

/-- A superscript/subscript pair used by `MultiScript`
(`src/math.rs`, `struct Pair`). -/
inductive Pair where
  | mk (sup sub : Element)

end

/-! ## Serialization

Each struct serializes to a map of its fields in declaration order, each enum
to a string (unit variant) or single-entry map (payload variant), following the
serde derives in `src/math.rs`.  A field with `skip_serializing_if` is elided
when its predicate holds (`Option::is_none`, `is_false`, `u32_is_one`,
`Vec::is_empty`); `Element.a` is an optional field and absent optionals are
elided (the spec's format has no null primitive). -/

/-- Map entry for an `Option` field elided when `None`. -/
def optEntry (k : String) : Option Value → List (String × Value)
  | none => []
  | some v => [(k, v)]

/-- A `bool` field with `skip_serializing_if = "is_false"`: present only when
`true`. -/
def boolElide (b : Bool) : Option Value :=
  if b then some (Value.bool true) else none

/-- A `u32` span with `skip_serializing_if = "u32_is_one"`: present only when
it differs from 1. -/
def spanElide (n : U32) : Option Value :=
  if n.val = 1 then none else some (Value.int n.val)

/-- A `Vec` field with `skip_serializing_if = "Vec::is_empty"`: present only
when nonempty. -/
def seqElide (xs : List Value) : Option Value :=
  if xs.isEmpty then none else some (Value.arr xs)

/-- Map entry for a `bool` field with `skip_serializing_if = "is_false"`. -/
def flagEntry (k : String) (b : Bool) : List (String × Value) :=
  optEntry k (boolElide b)

/-- Map entry for a `u32` span with `skip_serializing_if = "u32_is_one"`. -/
def spanEntry (k : String) (n : U32) : List (String × Value) :=
  optEntry k (spanElide n)

/-- Map entry for a `Vec` field with `skip_serializing_if = "Vec::is_empty"`. -/
def seqEntry (k : String) (xs : List Value) : List (String × Value) :=
  optEntry k (seqElide xs)

/-- Serde name of each `Variant` constructor. -/
def serVariant : Variant → String
  | .Normal => "Normal"
  | .Bold => "Bold"
  | .Italic => "Italic"
  | .BoldItalic => "BoldItalic"
  | .DoubleStruck => "DoubleStruck"
  | .BoldFraktur => "BoldFraktur"
  | .Script => "Script"
  | .BoldScript => "BoldScript"
  | .Fraktur => "Fraktur"
  | .SansSerif => "SansSerif"
  | .BoldSansSerif => "BoldSansSerif"
  | .SansSerifItalic => "SansSerifItalic"
  | .SansSerifBoldItalic => "SansSerifBoldItalic"
  | .Monospace => "Monospace"
  | .Initial => "Initial"
  | .Tailed => "Tailed"
  | .Looped => "Looped"
  | .Stretched => "Stretched"

/-- Serde name of each `OpForm` constructor. -/
def serOpForm : OpForm → String
  | .Prefix => "Prefix"
  | .Postfix => "Postfix"
  | .Infix => "Infix"

/-- Serialize a `ScriptLevel` (payload-carrying enum). -/
def serScriptLevel : ScriptLevel → Value
  | .Add z => Value.map [("Add", Value.int z.val)]
  | .Set n => Value.map [("Set", Value.int n.val)]

/-- Serialize a `Length` (payload-carrying enum). -/
def serLength : Length → Value
  | .Em x => Value.map [("Em", Value.f32 x)]
  | .Ex x => Value.map [("Ex", Value.f32 x)]

/-- Serialize a `LengthOrFraction` (payload-carrying enum). -/
def serLengthOrFraction : LengthOrFraction → Value
  | .Em x => Value.map [("Em", Value.f32 x)]
  | .Ex x => Value.map [("Ex", Value.f32 x)]
  | .Frac x => Value.map [("Frac", Value.f32 x)]

/-- Serialize a `Space`. -/
def serSpace (s : Space) : Value :=
  Value.map (optEntry "width" (s.width.map serLength)
    ++ optEntry "height" (s.height.map serLength)
    ++ optEntry "depth" (s.depth.map serLength))

/-- Serialize an `Operator`: `t` always written, the eleven overrides elided
when `None`. -/
def serOperator (o : Operator) : Value :=
  Value.map ([("t", Value.str (String.mk [o.t]))]
    ++ optEntry "form" (o.form.map (fun f => Value.str (serOpForm f)))
    ++ optEntry "max_size" (o.max_size.map serLengthOrFraction)
    ++ optEntry "min_size" (o.min_size.map serLengthOrFraction)
    ++ optEntry "lspace" (o.lspace.map serLengthOrFraction)
    ++ optEntry "rspace" (o.rspace.map serLengthOrFraction)
    ++ optEntry "stretchy" (o.stretchy.map Value.bool)
    ++ optEntry "symmetric" (o.symmetric.map Value.bool)
    ++ optEntry "large_op" (o.large_op.map Value.bool)
    ++ optEntry "movable_limits" (o.movable_limits.map Value.bool)
    ++ optEntry "separator" (o.separator.map Value.bool)
    ++ optEntry "fence" (o.fence.map Value.bool))

/-- Serialize a `ResolvedOperator`: all twelve fields always written. -/
def serResolvedOperator (o : ResolvedOperator) : Value :=
  Value.map [("t", Value.str (String.mk [o.t])),
    ("form", Value.str (serOpForm o.form)),
    ("max_size", serLength o.max_size),
    ("min_size", serLength o.min_size),
    ("lspace", serLength o.lspace),
    ("rspace", serLength o.rspace),
    ("stretchy", Value.bool o.stretchy),
    ("symmetric", Value.bool o.symmetric),
    ("large_op", Value.bool o.large_op),
    ("movable_limits", Value.bool o.movable_limits),
    ("separator", Value.bool o.separator),
    ("fence", Value.bool o.fence)]

/-- Serialize `Attributes`. -/
def serAttributes (a : Attributes) : Value :=
  Value.map (seqEntry "class" (a.«class».map Value.str)
    ++ flagEntry "rtl" a.rtl
    ++ optEntry "display_style" (a.display_style.map Value.bool)
    ++ optEntry "variant" (a.variant.map (fun v => Value.str (serVariant v)))
    ++ optEntry "script_level" (a.script_level.map serScriptLevel)
    ++ optEntry "data" (a.data.map Value.map))

mutual

/-- Serialize an `Element`: required field `e`, optional field `a`. -/
def serElement : Element → Value
  | .mk e a =>
    Value.map ([("e", serMathElement e)] ++ optEntry "a" (a.map serAttributes))

/-- Serialize a `MathElement` as a single-entry map tagged by the variant. -/
def serMathElement : MathElement → Value
  | .Op c => Value.map [("Op", Value.str (String.mk [c]))]
  | .Oper o => Value.map [("Oper", serOperator o)]
  | .ResolvedOper o => Value.map [("ResolvedOper", serResolvedOperator o)]
  | .Text s => Value.map [("Text", Value.str s)]
  | .Id t normal =>
    Value.map [("Id", Value.map ([("t", Value.str t)] ++ flagEntry "normal" normal))]
  | .Num s => Value.map [("Num", Value.str s)]
  | .Err s => Value.map [("Err", Value.str s)]
  | .Space s => Value.map [("Space", serSpace s)]
  | .Str s => Value.map [("Str", Value.str s)]
  | .Phantom elems => Value.map [("Phantom", Value.arr (serElementList elems))]
  | .Row elems => Value.map [("Row", Value.arr (serElementList elems))]
  | .Padding p => Value.map [("Padding", serPadding p)]
  | .Frac lt num den =>
    Value.map [("Frac", Value.map (optEntry "line_thickness" (lt.map Value.f32)
      ++ [("num", serElement num), ("den", serElement den)]))]
  | .Sqrt e => Value.map [("Sqrt", serElement e)]
  | .Root base index =>
    Value.map [("Root", Value.map [("base", serElement base), ("index", serElement index)])]
  | .Sup base sup =>
    Value.map [("Sup", Value.map [("base", serElement base), ("sup", serElement sup)])]
  | .Sub base sub =>
    Value.map [("Sub", Value.map [("base", serElement base), ("sub", serElement sub)])]
  | .SubSup base sub sup =>
    Value.map [("SubSup", Value.map [("base", serElement base),
      ("sub", serElement sub), ("sup", serElement sup)])]
  | .Over base over accent =>
    Value.map [("Over", Value.map ([("base", serElement base),
      ("over", serElement over)] ++ flagEntry "accent" accent))]
  | .Under base under accent_under =>
    Value.map [("Under", Value.map ([("base", serElement base),
      ("under", serElement under)] ++ flagEntry "accent_under" accent_under))]
  | .UnderOver base under over accent accent_under =>
    Value.map [("UnderOver", Value.map ([("base", serElement base),
      ("under", serElement under), ("over", serElement over)]
      ++ flagEntry "accent" accent ++ flagEntry "accent_under" accent_under))]
  | .MultiScript base post pre =>
    Value.map [("MultiScript", Value.map ([("base", serElement base)]
      ++ seqEntry "post" (serPairList post) ++ seqEntry "pre" (serPairList pre)))]
  | .Table rows =>
    Value.map [("Table", Value.map [("rows", Value.arr (serTableRowList rows))])]

/-- Serialize a `Padding`. -/
def serPadding : Padding → Value
  | .mk elems width height depth lspace voffset =>
    Value.map (seqEntry "elems" (serElementList elems)
      ++ optEntry "width" (width.map serLength)
      ++ optEntry "height" (height.map serLength)
      ++ optEntry "depth" (depth.map serLength)
      ++ optEntry "lspace" (lspace.map serLength)
      ++ optEntry "voffset" (voffset.map serLength))

/-- Serialize a `TableRow`. -/
def serTableRow : TableRow → Value
  | .mk cells a =>
    Value.map (seqEntry "cells" (serTableCellList cells)
      ++ optEntry "a" (a.map serAttributes))

/-- Serialize a `TableCell`. -/
def serTableCell : TableCell → Value
  | .mk col_span row_span elems a =>
    Value.map (spanEntry "col_span" col_span ++ spanEntry "row_span" row_span
      ++ seqEntry "elems" (serElementList elems)
      ++ optEntry "a" (a.map serAttributes))

/-- Serialize a `Pair`. -/
def serPair : Pair → Value
  | .mk sup sub =>
    Value.map [("sup", serElement sup), ("sub", serElement sub)]

/-- Serialize a list of elements. -/
def serElementList : List Element → List Value
  | [] => []
  | e :: es => serElement e :: serElementList es

/-- Serialize a list of pairs. -/
def serPairList : List Pair → List Value
  | [] => []
  | p :: ps => serPair p :: serPairList ps

/-- Serialize a list of table rows. -/
def serTableRowList : List TableRow → List Value
  | [] => []
  | r :: rs => serTableRow r :: serTableRowList rs

/-- Serialize a list of table cells. -/
def serTableCellList : List TableCell → List Value
  | [] => []
  | c :: cs => serTableCell c :: serTableCellList cs

end

/-! ## Deserialization

Mirrors the serde `Deserialize` derives of `src/math.rs`: structs read their
fields from a map (a field with a serde default falls back to it when the key
is absent, a required field fails the whole parse when absent), enums
dispatch on the unit-variant string or the single key of a single-entry map.
Unknown keys are ignored and duplicate keys resolve to the first occurrence;
the serializer never emits either. -/

/-- Look up the first occurrence of a key in a serialized map. -/
def getField : List (String × Value) → String → Option Value
  | [], _ => none
  | (k, v) :: rest, key => if key = k then some v else getField rest key

/-- Parse a Rust `char`: a string of exactly one character. -/
def deserChar : Value → Option Char
  | .str s =>
    match s.data with
    | [c] => some c
    | _ => none
  | _ => none

/-- Parse a `bool`. -/
def deserBool : Value → Option Bool
  | .bool b => some b
  | _ => none

/-- Parse a `String`. -/
def deserString : Value → Option String
  | .str s => some s
  | _ => none

/-- Parse a list of strings. -/
def deserStringList : List Value → Option (List String)
  | [] => some []
  | v :: vs =>
    match deserString v, deserStringList vs with
    | some s, some ss => some (s :: ss)
    | _, _ => none

/-- Parse an `f32`. -/
def deserF32 : Value → Option F32
  | .f32 x => some x
  | _ => none

/-- Parse a `u32` from an integer value, range-checked as serde does. -/
def deserU32 : Value → Option U32
  | .int n =>
    if h : 0 ≤ n ∧ n < 4294967296 then some ⟨n.toNat, by omega⟩ else none
  | _ => none

/-- Parse an `i32` from an integer value, range-checked as serde does. -/
def deserI32 : Value → Option I32
  | .int n =>
    if h : -2147483648 ≤ n ∧ n < 2147483648 then some ⟨n, h⟩ else none
  | _ => none

/-- Parse an `OpForm` unit variant. -/
def deserOpForm : Value → Option OpForm
  | .str "Prefix" => some .Prefix
  | .str "Postfix" => some .Postfix
  | .str "Infix" => some .Infix
  | _ => none

/-- Parse a `Variant` unit variant. -/
def deserVariant : Value → Option Variant
  | .str "Normal" => some .Normal
  | .str "Bold" => some .Bold
  | .str "Italic" => some .Italic
  | .str "BoldItalic" => some .BoldItalic
  | .str "DoubleStruck" => some .DoubleStruck
  | .str "BoldFraktur" => some .BoldFraktur
  | .str "Script" => some .Script
  | .str "BoldScript" => some .BoldScript
  | .str "Fraktur" => some .Fraktur
  | .str "SansSerif" => some .SansSerif
  | .str "BoldSansSerif" => some .BoldSansSerif
  | .str "SansSerifItalic" => some .SansSerifItalic
  | .str "SansSerifBoldItalic" => some .SansSerifBoldItalic
  | .str "Monospace" => some .Monospace
  | .str "Initial" => some .Initial
  | .str "Tailed" => some .Tailed
  | .str "Looped" => some .Looped
  | .str "Stretched" => some .Stretched
  | _ => none

/-- Parse a `ScriptLevel`. -/
def deserScriptLevel : Value → Option ScriptLevel
  | .map [("Add", v)] => (deserI32 v).map .Add
  | .map [("Set", v)] => (deserU32 v).map .Set
  | _ => none

/-- Parse a `Length`. -/
def deserLength : Value → Option Length
  | .map [("Em", v)] => (deserF32 v).map .Em
  | .map [("Ex", v)] => (deserF32 v).map .Ex
  | _ => none

/-- Parse a `LengthOrFraction`. -/
def deserLengthOrFraction : Value → Option LengthOrFraction
  | .map [("Em", v)] => (deserF32 v).map .Em
  | .map [("Ex", v)] => (deserF32 v).map .Ex
  | .map [("Frac", v)] => (deserF32 v).map .Frac
  | _ => none

/-- Parse a possibly absent field value: absent means `None`, present must
parse. -/
def parseOpt (p : Value → Option α) : Option Value → Option (Option α)
  | none => some none
  | some v => (p v).map some

/-- Parse a possibly absent field value with a serde default. -/
def parseDef (d : α) (p : Value → Option α) : Option Value → Option α
  | none => some d
  | some v => p v

/-- Parse a required field value: absent fails. -/
def parseReq (p : Value → Option α) : Option Value → Option α
  | none => none
  | some v => p v

/-- Parse an optional field: absent means `None`, present must parse. -/
def optField (kvs : List (String × Value)) (k : String)
    (p : Value → Option α) : Option (Option α) :=
  parseOpt p (getField kvs k)

/-- Parse a field with a serde default: absent means the default. -/
def defField (kvs : List (String × Value)) (k : String) (d : α)
    (p : Value → Option α) : Option α :=
  parseDef d p (getField kvs k)

/-- Parse a required field: absent fails. -/
def reqField (kvs : List (String × Value)) (k : String)
    (p : Value → Option α) : Option α :=
  parseReq p (getField kvs k)

/-- Parse a `Space` (struct-level serde default). -/
def deserSpace : Value → Option Space
  | .map kvs =>
    match optField kvs "width" deserLength, optField kvs "height" deserLength,
        optField kvs "depth" deserLength with
    | some w, some h, some d => some ⟨w, h, d⟩
    | _, _, _ => none
  | _ => none

/-- Parse an `Operator` (struct-level serde default, so a missing `t` falls
back to `char::default()`, i.e. `'\0'`). -/
def deserOperator : Value → Option Operator
  | .map kvs =>
    match defField kvs "t" (Char.ofNat 0) deserChar,
        optField kvs "form" deserOpForm,
        optField kvs "max_size" deserLengthOrFraction,
        optField kvs "min_size" deserLengthOrFraction,
        optField kvs "lspace" deserLengthOrFraction,
        optField kvs "rspace" deserLengthOrFraction with
    | some t, some form, some max_size, some min_size, some lspace, some rspace =>
      match optField kvs "stretchy" deserBool, optField kvs "symmetric" deserBool,
          optField kvs "large_op" deserBool, optField kvs "movable_limits" deserBool,
          optField kvs "separator" deserBool, optField kvs "fence" deserBool with
      | some st, some sy, some lo, some ml, some se, some fe =>
        some ⟨t, form, max_size, min_size, lspace, rspace, st, sy, lo, ml, se, fe⟩
      | _, _, _, _, _, _ => none
    | _, _, _, _, _, _ => none
  | _ => none

/-- Parse a `ResolvedOperator` (no serde defaults: every field required). -/
def deserResolvedOperator : Value → Option ResolvedOperator
  | .map kvs =>
    match reqField kvs "t" deserChar, reqField kvs "form" deserOpForm,
        reqField kvs "max_size" deserLength, reqField kvs "min_size" deserLength,
        reqField kvs "lspace" deserLength, reqField kvs "rspace" deserLength with
    | some t, some form, some max_size, some min_size, some lspace, some rspace =>
      match reqField kvs "stretchy" deserBool, reqField kvs "symmetric" deserBool,
          reqField kvs "large_op" deserBool, reqField kvs "movable_limits" deserBool,
          reqField kvs "separator" deserBool, reqField kvs "fence" deserBool with
      | some st, some sy, some lo, some ml, some se, some fe =>
        some ⟨t, form, max_size, min_size, lspace, rspace, st, sy, lo, ml, se, fe⟩
      | _, _, _, _, _, _ => none
    | _, _, _, _, _, _ => none
  | _ => none

/-- Parse an array of strings (the `class` field). -/
def deserStrArr : Value → Option (List String)
  | .arr xs => deserStringList xs
  | _ => none

/-- Parse an arbitrary serialized map (the open-ended `data` field). -/
def deserDataMap : Value → Option (List (String × Value))
  | .map m => some m
  | _ => none

/-- Parse `Attributes` (struct-level serde default). -/
def deserAttributes : Value → Option Attributes
  | .map kvs =>
    match defField kvs "class" [] deserStrArr,
        defField kvs "rtl" false deserBool,
        optField kvs "display_style" deserBool,
        optField kvs "variant" deserVariant,
        optField kvs "script_level" deserScriptLevel,
        optField kvs "data" deserDataMap with
    | some cls, some rtl, some ds, some va, some sl, some da =>
      some ⟨cls, rtl, ds, va, sl, da⟩
    | _, _, _, _, _, _ => none
  | _ => none

/-- The `u32` value 1, default of the table span counts. -/
def u32one : U32 := ⟨1, by norm_num⟩

/-! The recursive deserializer is fuel-indexed so that it is structurally
recursive (and hence evaluates by kernel reduction); fuel `0` fails, and every
recursive step consumes one unit.  Any fuel at least the size of the
serialized tree is ample, which the round-trip theorem makes precise. -/

mutual

/-- Parse an `Element`: required field `e`, optional field `a`. -/
def deserElement : Nat → Value → Option Element
  | 0, _ => none
  | fuel + 1, .map kvs =>
    (match getField kvs "e" with
     | some ev =>
       (match deserMathElement fuel ev with
        | some e =>
          (match getField kvs "a" with
           | none => some (.mk e none)
           | some av =>
             match deserAttributes av with
             | some a => some (.mk e (some a))
             | none => none)
        | none => none)
     | none => none)
  | _ + 1, _ => none

/-- Parse a required `Element`-valued field of a struct payload. -/
def deserElemField : Nat → List (String × Value) → String → Option Element
  | 0, _, _ => none
  | fuel + 1, kvs, k =>
    match getField kvs k with
    | some v => deserElement fuel v
    | none => none

/-- Parse a `Vec<Element>`-valued field with serde default `[]`. -/
def deserElemsField : Nat → List (String × Value) → String → Option (List Element)
  | 0, _, _ => none
  | fuel + 1, kvs, k =>
    match getField kvs k with
    | none => some []
    | some (.arr xs) => deserElementList fuel xs
    | some _ => none

/-- Parse a `Vec<Pair>`-valued field with serde default `[]`. -/
def deserPairsField : Nat → List (String × Value) → String → Option (List Pair)
  | 0, _, _ => none
  | fuel + 1, kvs, k =>
    match getField kvs k with
    | none => some []
    | some (.arr xs) => deserPairList fuel xs
    | some _ => none

/-- Parse a `MathElement` from its single-entry tagged map. -/
def deserMathElement : Nat → Value → Option MathElement
  | 0, _ => none
  | fuel + 1, .map [(tag, p)] =>
    match tag with
    | "Op" => (deserChar p).map .Op
    | "Oper" => (deserOperator p).map .Oper
    | "ResolvedOper" => (deserResolvedOperator p).map .ResolvedOper
    | "Text" => (deserString p).map .Text
    | "Id" =>
      (match p with
       | .map kvs =>
         match reqField kvs "t" deserString, defField kvs "normal" false deserBool with
         | some t, some normal => some (.Id t normal)
         | _, _ => none
       | _ => none)
    | "Num" => (deserString p).map .Num
    | "Err" => (deserString p).map .Err
    | "Space" => (deserSpace p).map .Space
    | "Str" => (deserString p).map .Str
    | "Phantom" =>
      (match p with
       | .arr xs => (deserElementList fuel xs).map .Phantom
       | _ => none)
    | "Row" =>
      (match p with
       | .arr xs => (deserElementList fuel xs).map .Row
       | _ => none)
    | "Padding" => (deserPadding fuel p).map .Padding
    | "Frac" =>
      (match p with
       | .map kvs =>
         match deserElemField fuel kvs "num", deserElemField fuel kvs "den",
             optField kvs "line_thickness" deserF32 with
         | some num, some den, some lt => some (.Frac lt num den)
         | _, _, _ => none
       | _ => none)
    | "Sqrt" => (deserElement fuel p).map .Sqrt
    | "Root" =>
      (match p with
       | .map kvs =>
         match deserElemField fuel kvs "base", deserElemField fuel kvs "index" with
         | some base, some index => some (.Root base index)
         | _, _ => none
       | _ => none)
    | "Sup" =>
      (match p with
       | .map kvs =>
         match deserElemField fuel kvs "base", deserElemField fuel kvs "sup" with
         | some base, some sup => some (.Sup base sup)
         | _, _ => none
       | _ => none)
    | "Sub" =>
      (match p with
       | .map kvs =>
         match deserElemField fuel kvs "base", deserElemField fuel kvs "sub" with
         | some base, some sub => some (.Sub base sub)
         | _, _ => none
       | _ => none)
    | "SubSup" =>
      (match p with
       | .map kvs =>
         match deserElemField fuel kvs "base", deserElemField fuel kvs "sub",
             deserElemField fuel kvs "sup" with
         | some base, some sub, some sup => some (.SubSup base sub sup)
         | _, _, _ => none
       | _ => none)
    | "Over" =>
      (match p with
       | .map kvs =>
         match deserElemField fuel kvs "base", deserElemField fuel kvs "over",
             defField kvs "accent" false deserBool with
         | some base, some over, some accent => some (.Over base over accent)
         | _, _, _ => none
       | _ => none)
    | "Under" =>
      (match p with
       | .map kvs =>
         match deserElemField fuel kvs "base", deserElemField fuel kvs "under",
             defField kvs "accent_under" false deserBool with
         | some base, some under, some au => some (.Under base under au)
         | _, _, _ => none
       | _ => none)
    | "UnderOver" =>
      (match p with
       | .map kvs =>
         match deserElemField fuel kvs "base", deserElemField fuel kvs "under",
             deserElemField fuel kvs "over", defField kvs "accent" false deserBool,
             defField kvs "accent_under" false deserBool with
         | some base, some under, some over, some a, some au =>
           some (.UnderOver base under over a au)
         | _, _, _, _, _ => none
       | _ => none)
    | "MultiScript" =>
      (match p with
       | .map kvs =>
         match deserElemField fuel kvs "base", deserPairsField fuel kvs "post",
             deserPairsField fuel kvs "pre" with
         | some base, some post, some pre => some (.MultiScript base post pre)
         | _, _, _ => none
       | _ => none)
    | "Table" =>
      (match p with
       | .map kvs =>
         (match getField kvs "rows" with
          | some (.arr xs) => (deserTableRowList fuel xs).map .Table
          | some _ => none
          | none => none)
       | _ => none)
    | _ => none
  | _ + 1, _ => none

/-- Parse a `Padding` (struct-level serde default). -/
def deserPadding : Nat → Value → Option Padding
  | 0, _ => none
  | fuel + 1, .map kvs =>
    (match deserElemsField fuel kvs "elems", optField kvs "width" deserLength,
        optField kvs "height" deserLength, optField kvs "depth" deserLength,
        optField kvs "lspace" deserLength, optField kvs "voffset" deserLength with
     | some elems, some w, some h, some d, some l, some vo =>
       some (.mk elems w h d l vo)
     | _, _, _, _, _, _ => none)
  | _ + 1, _ => none

/-- Parse a `TableRow` (struct-level serde default). -/
def deserTableRow : Nat → Value → Option TableRow
  | 0, _ => none
  | fuel + 1, .map kvs =>
    (match deserCellsField fuel kvs "cells", optField kvs "a" deserAttributes with
     | some cells, some a => some (.mk cells a)
     | _, _ => none)
  | _ + 1, _ => none

/-- Parse a `Vec<TableCell>`-valued field with serde default `[]`. -/
def deserCellsField : Nat → List (String × Value) → String → Option (List TableCell)
  | 0, _, _ => none
  | fuel + 1, kvs, k =>
    match getField kvs k with
    | none => some []
    | some (.arr xs) => deserTableCellList fuel xs
    | some _ => none

/-- Parse a `TableCell` (field-level serde defaults). -/
def deserTableCell : Nat → Value → Option TableCell
  | 0, _ => none
  | fuel + 1, .map kvs =>
    (match defField kvs "col_span" u32one deserU32,
        defField kvs "row_span" u32one deserU32,
        deserElemsField fuel kvs "elems", optField kvs "a" deserAttributes with
     | some cs, some rs, some elems, some a => some (.mk cs rs elems a)
     | _, _, _, _ => none)
  | _ + 1, _ => none

/-- Parse a `Pair`: both fields required. -/
def deserPair : Nat → Value → Option Pair
  | 0, _ => none
  | fuel + 1, .map kvs =>
    (match deserElemField fuel kvs "sup", deserElemField fuel kvs "sub" with
     | some sup, some sub => some (.mk sup sub)
     | _, _ => none)
  | _ + 1, _ => none

/-- Parse a list of elements. -/
def deserElementList : Nat → List Value → Option (List Element)
  | 0, _ => none
  | _ + 1, [] => some []
  | fuel + 1, v :: vs =>
    match deserElement fuel v, deserElementList fuel vs with
    | some e, some es => some (e :: es)
    | _, _ => none

/-- Parse a list of pairs. -/
def deserPairList : Nat → List Value → Option (List Pair)
  | 0, _ => none
  | _ + 1, [] => some []
  | fuel + 1, v :: vs =>
    match deserPair fuel v, deserPairList fuel vs with
    | some p, some ps => some (p :: ps)
    | _, _ => none

/-- Parse a list of table rows. -/
def deserTableRowList : Nat → List Value → Option (List TableRow)
  | 0, _ => none
  | _ + 1, [] => some []
  | fuel + 1, v :: vs =>
    match deserTableRow fuel v, deserTableRowList fuel vs with
    | some r, some rs => some (r :: rs)
    | _, _ => none

/-- Parse a list of table cells. -/
def deserTableCellList : Nat → List Value → Option (List TableCell)
  | 0, _ => none
  | _ + 1, [] => some []
  | fuel + 1, v :: vs =>
    match deserTableCell fuel v, deserTableCellList fuel vs with
    | some c, some cs => some (c :: cs)
    | _, _ => none

end

/-! ## The fog-pack validator model

Modelled from the spec: the validation engine itself is an external
collaborator ("the validation *engine* itself that walks a schema against raw
bytes" is out of scope), so its semantics are embedded from the spec's
description of the schema language: a registry of named, mutually recursive
type fragments; map validators with required and optional fields and an
optional catch-all `values` validator; array validators with an item
validator; closed enum validators whose value must carry one of the declared
variant names (string for a payload-free variant, single-entry map for a
payload-carrying one); string validators with an optional membership set
(`in_add`) and an optional maximum character count (`max_char`); integer
validators with an inclusive range; unconstrained boolean and float32
validators; and `new_any`, which accepts every value.  Validation is given
fuel to cross named references; every claim below either fixes the fuel on a
concrete document or holds for the fuel actually supplied. -/

inductive Validator where
  | anyV
  | boolV
  | intV (min max : Int)
  | f32V
  | strV (inSet : List String) (maxChar : Option Nat)
  | arrV (items : Validator)
  | mapV (req opt : List (String × Validator)) (values : Option Validator)
  | enumV (vars : List (String × Option Validator))
  | refV (name : String)

/-- First-match association-list lookup (used for validator registries). -/
def lookupBy {α : Type} : List (String × α) → String → Option α
  | [], _ => none
  | (k, v) :: rest, key => if key = k then some v else lookupBy rest key

/-- Run a validator against a value, dereferencing named types in `types`;
`fuel` bounds the recursion depth. -/
def validate (types : List (String × Validator)) : Nat → Validator → Value → Bool
  | 0, _, _ => false
  | Nat.succ fuel, vd, x =>
    match vd with
    | .anyV => true
    | .boolV => match x with | .bool _ => true | _ => false
    | .intV lo hi =>
      match x with
      | .int n => decide (lo ≤ n) && decide (n ≤ hi)
      | _ => false
    | .f32V => match x with | .f32 _ => true | _ => false
    | .strV inSet maxChar =>
      match x with
      | .str s =>
        (inSet.isEmpty || inSet.contains s)
          && (match maxChar with
              | none => true
              | some m => decide (s.length ≤ m))
      | _ => false
    | .arrV items =>
      match x with
      | .arr xs => xs.all (fun y => validate types fuel items y)
      | _ => false
    | .mapV req opt values =>
      match x with
      | .map kvs =>
        req.all (fun kv =>
          match getField kvs kv.1 with
          | some xv => validate types fuel kv.2 xv
          | none => false)
        && kvs.all (fun kx =>
            match lookupBy req kx.1 with
            | some vv => validate types fuel vv kx.2
            | none =>
              match lookupBy opt kx.1 with
              | some vv => validate types fuel vv kx.2
              | none =>
                match values with
                | some vv => validate types fuel vv kx.2
                | none => false)
      | _ => false
    | .enumV vars =>
      match x with
      | .str s =>
        (match lookupBy vars s with
         | some none => true
         | _ => false)
      | .map [(tag, payload)] =>
        (match lookupBy vars tag with
         | some (some pv) => validate types fuel pv payload
         | _ => false)
      | _ => false
    | .refV name =>
      match lookupBy types name with
      | some vv => validate types fuel vv x
      | none => false

/-! ## The fog-math schema (`src/schema.rs`, `schema_doc()`)

A direct transcription of the `SchemaBuilder` calls: each `type_add` becomes
an entry of `schemaTypes`, `req_add`/`opt_add` become the `req`/`opt` lists in
build order, and the top-level document validator becomes `rootValidator`. -/

/-- `type_add("OpForm", ...)`: enum with the three payload-free forms. -/
def opFormValidator : Validator :=
  .enumV [("Prefix", none), ("Postfix", none), ("Infix", none)]

/-- The `in_add` membership set of the `variant` field validator. -/
def variantInSet : List String :=
  ["Normal", "Bold", "Italic", "BoldItalic", "DoubleStruck", "BoldFraktur",
   "Script", "BoldScript", "Fraktur", "SansSerif", "BoldSansSerif",
   "SansSerifItalic", "SansSerifBoldItalic", "Monospace", "Initial",
   "Tailed", "Looped", "Stretched"]

/-- `type_add("Attributes", ...)`. -/
def attributesValidator : Validator :=
  .mapV []
    [("class", .arrV (.strV [] none)),
     ("rtl", .boolV),
     ("display_style", .boolV),
     ("variant", .strV variantInSet none),
     ("script_level", .enumV
        [("Set", some (.intV 0 4294967295)),
         ("Add", some (.intV (-2147483648) 2147483647))]),
     ("data", .mapV [] [] (some .anyV))]
    none

/-- `type_add("Length", ...)`. -/
def lengthValidator : Validator :=
  .enumV [("Em", some .f32V), ("Ex", some .f32V)]

/-- `type_add("LengthOrFraction", ...)`. -/
def lengthOrFractionValidator : Validator :=
  .enumV [("Em", some .f32V), ("Ex", some .f32V), ("Frac", some .f32V)]

/-- `type_add("Pair", ...)`. -/
def pairValidator : Validator :=
  .mapV [("sup", .refV "Element"), ("sub", .refV "Element")] [] none

/-- The `Oper` payload validator inside the `e` enum. -/
def operPayloadValidator : Validator :=
  .mapV [("t", .strV [] (some 1))]
    [("form", .enumV [("Prefix", none), ("Postfix", none), ("Infix", none)]),
     ("max_size", .refV "LengthOrFraction"),
     ("min_size", .refV "LengthOrFraction"),
     ("lspace", .refV "LengthOrFraction"),
     ("rspace", .refV "LengthOrFraction"),
     ("stretchy", .boolV),
     ("symmetric", .boolV),
     ("large_op", .boolV),
     ("movable_limits", .boolV),
     ("separator", .boolV),
     ("fence", .boolV)]
    none

/-- The `ResolvedOper` payload validator inside the `e` enum: eleven `req_add`
calls after `t`, i.e. twelve required fields in total. -/
def resolvedOperPayloadValidator : Validator :=
  .mapV
    [("t", .strV [] (some 1)),
     ("form", .enumV [("Prefix", none), ("Postfix", none), ("Infix", none)]),
     ("max_size", .refV "Length"),
     ("min_size", .refV "Length"),
     ("lspace", .refV "Length"),
     ("rspace", .refV "Length"),
     ("stretchy", .boolV),
     ("symmetric", .boolV),
     ("large_op", .boolV),
     ("movable_limits", .boolV),
     ("separator", .boolV),
     ("fence", .boolV)]
    [] none

/-- The enum validator of the required `e` field of an `Element`. -/
def elementEnum : Validator :=
  .enumV
    [("Op", some (.strV [] (some 1))),
     ("Oper", some operPayloadValidator),
     ("ResolvedOper", some resolvedOperPayloadValidator),
     ("Text", some (.strV [] none)),
     ("Id", some (.mapV [("t", .strV [] none)] [("normal", .boolV)] none)),
     ("Num", some (.strV [] none)),
     ("Err", some (.strV [] none)),
     ("Space", some (.mapV []
        [("width", .refV "Length"), ("height", .refV "Length"),
         ("depth", .refV "Length")] none)),
     ("Str", some (.strV [] none)),
     ("Phantom", some (.arrV (.refV "Element"))),
     ("Row", some (.arrV (.refV "Element"))),
     ("Padding", some (.mapV []
        [("elems", .arrV (.refV "Element")),
         ("width", .refV "Length"), ("height", .refV "Length"),
         ("depth", .refV "Length"), ("lspace", .refV "Length"),
         ("voffset", .refV "Length")] none)),
     ("Frac", some (.mapV
        [("num", .refV "Element"), ("den", .refV "Element")]
        [("line_thickness", .f32V)] none)),
     ("Sqrt", some (.refV "Element")),
     ("Root", some (.mapV
        [("base", .refV "Element"), ("index", .refV "Element")] [] none)),
     ("Sup", some (.mapV
        [("base", .refV "Element"), ("sup", .refV "Element")] [] none)),
     ("Sub", some (.mapV
        [("base", .refV "Element"), ("sub", .refV "Element")] [] none)),
     ("SubSup", some (.mapV
        [("base", .refV "Element"), ("sup", .refV "Element"),
         ("sub", .refV "Element")] [] none)),
     ("Over", some (.mapV
        [("base", .refV "Element"), ("over", .refV "Element")]
        [("accent", .boolV)] none)),
     ("Under", some (.mapV
        [("base", .refV "Element"), ("under", .refV "Element")]
        [("accent_under", .boolV)] none)),
     ("UnderOver", some (.mapV
        [("base", .refV "Element"), ("under", .refV "Element"),
         ("over", .refV "Element")]
        [("accent", .boolV), ("accent_under", .boolV)] none)),
     ("MultiScript", some (.mapV
        [("base", .refV "Element")]
        [("post", .arrV (.refV "Pair")), ("pre", .arrV (.refV "Pair"))] none)),
     ("Table", some (.arrV (.mapV []
        [("a", .refV "Attributes"),
         ("cells", .arrV (.refV "TableCell"))] none)))]

/-- `type_add("Element", ...)`: optional `a`, required `e`. -/
def elementValidator : Validator :=
  .mapV [("e", elementEnum)] [("a", .refV "Attributes")] none

/-- `type_add("TableCell", ...)`. -/
def tableCellValidator : Validator :=
  .mapV []
    [("col_span", .intV 0 4294967295),
     ("row_span", .intV 0 4294967295),
     ("elems", .arrV (.refV "Element")),
     ("a", .refV "Attributes")]
    none

/-- The named type registry, in `type_add` order. -/
def schemaTypes : List (String × Validator) :=
  [("OpForm", opFormValidator),
   ("Attributes", attributesValidator),
   ("Length", lengthValidator),
   ("LengthOrFraction", lengthOrFractionValidator),
   ("Pair", pairValidator),
   ("Element", elementValidator),
   ("TableCell", tableCellValidator)]

/-- The top-level document validator passed to `SchemaBuilder::new`: an array
whose items validator is `EnumValidator::new().build()`, an enum with no
declared variants. -/
def rootValidator : Validator := .arrV (.enumV [])

/-- The compiled schema artifact: name, version, description, top document
validator and type registry (`src/schema.rs`, `schema_doc()`). -/
structure Schema where
  name : String
  version : Int
  description : String
  doc : Validator
  types : List (String × Validator)

/-- The schema built by `schema_doc()`. -/
def fogMathSchema : Schema :=
  { name := "fog-math"
    version := 1
    description := "Formatted math, closely matching MathML."
    doc := rootValidator
    types := schemaTypes }

mutual

/-- Structural size of a value, used to supply ample validation fuel. -/
def valueSize : Value → Nat
  | .bool _ => 1
  | .int _ => 1
  | .f32 _ => 1
  | .str _ => 1
  | .arr xs => 1 + valueListSize xs
  | .map kvs => 1 + kvsSize kvs

/-- Structural size of a value list. -/
def valueListSize : List Value → Nat
  | [] => 0
  | v :: vs => 1 + valueSize v + valueListSize vs

/-- Structural size of a key/value list. -/
def kvsSize : List (String × Value) → Nat
  | [] => 0
  | (_, v) :: rest => 1 + valueSize v + kvsSize rest

end

/-- Document-level validation: the document value checked against the
schema's top-level validator, with fuel ample for the value. -/
def validateDoc (v : Value) : Bool :=
  validate fogMathSchema.types (valueSize v + 1) fogMathSchema.doc v

/-- Fragment-level validation with explicit fuel: the value checked against a
named type of the schema's registry. -/
def validateType (name : String) (fuel : Nat) (v : Value) : Bool :=
  validate fogMathSchema.types fuel (.refV name) v

/-! ## Auxiliary definitions for the claims -/

/-- The serde tag under which each `MathElement` constructor serializes. -/
def mathElementTag : MathElement → String
  | .Op _ => "Op"
  | .Oper _ => "Oper"
  | .ResolvedOper _ => "ResolvedOper"
  | .Text _ => "Text"
  | .Id _ _ => "Id"
  | .Num _ => "Num"
  | .Err _ => "Err"
  | .Space _ => "Space"
  | .Str _ => "Str"
  | .Phantom _ => "Phantom"
  | .Row _ => "Row"
  | .Padding _ => "Padding"
  | .Frac _ _ _ => "Frac"
  | .Sqrt _ => "Sqrt"
  | .Root _ _ => "Root"
  | .Sup _ _ => "Sup"
  | .Sub _ _ => "Sub"
  | .SubSup _ _ _ => "SubSup"
  | .Over _ _ _ => "Over"
  | .Under _ _ _ => "Under"
  | .UnderOver _ _ _ _ _ => "UnderOver"
  | .MultiScript _ _ _ => "MultiScript"
  | .Table _ => "Table"

/-- The declared alternative names of an enum validator. -/
def enumTags : Validator → List String
  | .enumV vars => vars.map Prod.fst
  | _ => []

/-- The declared alternative names of the `form` field inside the `Oper`
payload validator. -/
def operFormTags : List String :=
  match operPayloadValidator with
  | .mapV _ opt _ =>
    (match lookupBy opt "form" with
     | some v => enumTags v
     | none => [])
  | _ => []

/-- The declared alternative names of the `form` field inside the
`ResolvedOper` payload validator. -/
def resolvedOperFormTags : List String :=
  match resolvedOperPayloadValidator with
  | .mapV req _ _ =>
    (match lookupBy req "form" with
     | some v => enumTags v
     | none => [])
  | _ => []

/-- A sample unresolved operator (`'+'`, every override `None`). -/
def sampleOperator : Operator :=
  ⟨'+', none, none, none, none, none, none, none, none, none, none, none⟩

/-- A sample resolved operator with all twelve fields set. -/
def sampleResolvedOperator : ResolvedOperator :=
  ⟨'+', .Infix, .Em ⟨0⟩, .Em ⟨0⟩, .Em ⟨0⟩, .Em ⟨0⟩,
   false, false, false, false, false, false⟩

/-- A bare numeric element with no attributes. -/
def numElem (s : String) : Element := .mk (.Num s) none

/-- One representative per `MathElement` constructor, in declaration order. -/
def mathElementReps : List MathElement :=
  [.Op '+', .Oper sampleOperator, .ResolvedOper sampleResolvedOperator,
   .Text "x", .Id "f" false, .Num "1", .Err "e", .Space ⟨none, none, none⟩,
   .Str "s", .Phantom [], .Row [], .Padding ⟨[], none, none, none, none, none⟩,
   .Frac none (numElem "1") (numElem "2"), .Sqrt (numElem "2"),
   .Root (numElem "2") (numElem "3"), .Sup (numElem "x") (numElem "2"),
   .Sub (numElem "x") (numElem "2"),
   .SubSup (numElem "x") (numElem "1") (numElem "2"),
   .Over (numElem "x") (numElem "1") false,
   .Under (numElem "x") (numElem "1") false,
   .UnderOver (numElem "x") (numElem "1") (numElem "2") false false,
   .MultiScript (numElem "x") [] [], .Table []]

/-- All `Variant` constructors, in declaration order. -/
def variantReps : List Variant :=
  [.Normal, .Bold, .Italic, .BoldItalic, .DoubleStruck, .BoldFraktur,
   .Script, .BoldScript, .Fraktur, .SansSerif, .BoldSansSerif,
   .SansSerifItalic, .SansSerifBoldItalic, .Monospace, .Initial,
   .Tailed, .Looped, .Stretched]

/-- All `OpForm` constructors, in declaration order. -/
def opFormReps : List OpForm := [.Prefix, .Postfix, .Infix]

/-- The spec's concrete scenario document: `Frac` with `num = Num "1"`,
`den = Num "2"`, no line thickness, inside an attribute-free `Row`. -/
def fracElem : Element := .mk (.Frac none (numElem "1") (numElem "2")) none

/-- The `Row` wrapper of the concrete scenario. -/
def c7doc : Element := .mk (.Row [fracElem]) none

/-- The serialized payload fields of `sampleResolvedOperator`, as the
serializer emits them. -/
def resolvedOperFields : List (String × Value) :=
  [("t", Value.str "+"),
   ("form", Value.str "Infix"),
   ("max_size", Value.map [("Em", Value.f32 ⟨0⟩)]),
   ("min_size", Value.map [("Em", Value.f32 ⟨0⟩)]),
   ("lspace", Value.map [("Em", Value.f32 ⟨0⟩)]),
   ("rspace", Value.map [("Em", Value.f32 ⟨0⟩)]),
   ("stretchy", Value.bool false),
   ("symmetric", Value.bool false),
   ("large_op", Value.bool false),
   ("movable_limits", Value.bool false),
   ("separator", Value.bool false),
   ("fence", Value.bool false)]

/-- Remove every entry with the given key from a serialized map. -/
def removeKey (k : String) (kvs : List (String × Value)) : List (String × Value) :=
  kvs.filter (fun kv => kv.1 != k)

/-- Wrap `ResolvedOper` payload fields into a serialized `Element` map. -/
def resolvedOperDoc (kvs : List (String × Value)) : Value :=
  .map [("e", .map [("ResolvedOper", .map kvs)])]

mutual

/-- All type names referenced via `Validator::new_ref` inside a validator. -/
def refNames : Validator → List String
  | .anyV => []
  | .boolV => []
  | .intV _ _ => []
  | .f32V => []
  | .strV _ _ => []
  | .arrV items => refNames items
  | .mapV req opt values =>
    refNamesKV req ++ refNamesKV opt ++ refNamesOpt values
  | .enumV vars => refNamesEnum vars
  | .refV name => [name]

/-- Reference names in a field list. -/
def refNamesKV : List (String × Validator) → List String
  | [] => []
  | (_, v) :: rest => refNames v ++ refNamesKV rest

/-- Reference names in an optional validator. -/
def refNamesOpt : Option Validator → List String
  | none => []
  | some v => refNames v

/-- Reference names in an enum variant list. -/
def refNamesEnum : List (String × Option Validator) → List String
  | [] => []
  | (_, ov) :: rest => refNamesOpt ov ++ refNamesEnum rest

end

/-- Every reference that occurs anywhere in the compiled schema. -/
def schemaAllRefs : List String :=
  refNames fogMathSchema.doc ++ refNamesKV fogMathSchema.types

/-- The registered type names of the compiled schema. -/
def schemaTypeNames : List String := fogMathSchema.types.map Prod.fst

/-! ## Round-trip lemmas: field access over serialized entry lists -/

theorem getField_nil (k : String) : getField [] k = none := rfl

theorem getField_cons_self (k : String) (v : Value) (rest : List (String × Value)) :
    getField ((k, v) :: rest) k = some v := by
  simp [getField]

theorem getField_cons_ne {key k : String} (h : key ≠ k) (v : Value)
    (rest : List (String × Value)) :
    getField ((k, v) :: rest) key = getField rest key := by
  simp [getField, h]

theorem getField_optEntry_ne {key k : String} (h : key ≠ k) (o : Option Value)
    (rest : List (String × Value)) :
    getField (optEntry k o ++ rest) key = getField rest key := by
  cases o <;> simp [optEntry, getField, h]

theorem getField_optEntry_self (k : String) (o : Option Value)
    (rest : List (String × Value)) (hrest : getField rest k = none) :
    getField (optEntry k o ++ rest) k = o := by
  cases o <;> simp [optEntry, getField, hrest]

theorem getField_optEntry_last_ne {key k : String} (h : key ≠ k) (o : Option Value) :
    getField (optEntry k o) key = none := by
  cases o <;> simp [optEntry, getField, h]

theorem getField_optEntry_last_self (k : String) (o : Option Value) :
    getField (optEntry k o) k = o := by
  cases o <;> simp [optEntry, getField]

/-! ## Round-trip lemmas: parsing a field that was serialized by the model -/

theorem parseDef_some {α} (d : α) (des : Value → Option α) (v : Value) :
    parseDef d des (some v) = des v := rfl

theorem parseDef_none {α} (d : α) (des : Value → Option α) :
    parseDef d des none = some d := rfl

theorem parseReq_some {α} (des : Value → Option α) (v : Value) :
    parseReq des (some v) = des v := rfl

theorem parseOpt_rt {α} {des : Value → Option α} {s : α → Value}
    (h : ∀ x, des (s x) = some x) (o : Option α) :
    parseOpt des (o.map s) = some o := by
  cases o <;> simp [parseOpt, h]

theorem rt_bool (b : Bool) : deserBool (Value.bool b) = some b := rfl

theorem rt_char (c : Char) : deserChar (Value.str (String.mk [c])) = some c := rfl

theorem rt_u32 (n : U32) : deserU32 (Value.int n.val) = some n := by
  have h2 := n.2
  simp only [deserU32]
  rw [dif_pos ⟨Int.natCast_nonneg _, by exact_mod_cast h2⟩]
  exact congrArg some (Subtype.ext (by simp))

theorem rt_i32 (z : I32) : deserI32 (Value.int z.val) = some z := by
  simp only [deserI32]
  rw [dif_pos z.2]
  rfl

theorem rt_opForm (f : OpForm) : deserOpForm (Value.str (serOpForm f)) = some f := by
  cases f <;> rfl

theorem rt_variant (v : Variant) : deserVariant (Value.str (serVariant v)) = some v := by
  cases v <;> rfl

theorem rt_length (l : Length) : deserLength (serLength l) = some l := by
  cases l <;> rfl

theorem rt_lengthOrFraction (l : LengthOrFraction) :
    deserLengthOrFraction (serLengthOrFraction l) = some l := by
  cases l <;> rfl

theorem rt_f32 (x : F32) : deserF32 (Value.f32 x) = some x := rfl

theorem rt_scriptLevel (sl : ScriptLevel) : deserScriptLevel (serScriptLevel sl) = some sl := by
  cases sl with
  | Add z => simp [serScriptLevel, deserScriptLevel, rt_i32]
  | Set n => simp [serScriptLevel, deserScriptLevel, rt_u32]

theorem rt_stringList (l : List String) : deserStringList (l.map Value.str) = some l := by
  induction l with
  | nil => rfl
  | cons c cs ih => simp [deserStringList, deserString, ih]

theorem parseDef_flag (b : Bool) : parseDef false deserBool (boolElide b) = some b := by
  cases b <;> rfl

theorem parseDef_span (n : U32) : parseDef u32one deserU32 (spanElide n) = some n := by
  by_cases h : n.val = 1
  · simp [spanElide, h, parseDef]
    exact (Subtype.ext h.symm)
  · simp [spanElide, h, parseDef, rt_u32]

/-- The simp set that pushes `getField` through a serialized entry list. -/
theorem rt_space (s : Space) : deserSpace (serSpace s) = some s := by
  obtain ⟨w, h, d⟩ := s
  simp [serSpace, deserSpace, optField,
    getField_optEntry_ne, getField_optEntry_self, getField_optEntry_last_ne,
    getField_optEntry_last_self, getField_cons_self, getField_cons_ne, getField_nil,
    parseOpt_rt rt_length]

theorem rt_operator (o : Operator) : deserOperator (serOperator o) = some o := by
  obtain ⟨t, form, ms, mns, ls, rs, st, sy, lo, ml, se, fe⟩ := o
  simp [serOperator, deserOperator, optField, defField,
    getField_optEntry_ne, getField_optEntry_self, getField_optEntry_last_ne,
    getField_optEntry_last_self, getField_cons_self, getField_cons_ne, getField_nil,
    parseDef_some, parseReq_some, rt_char,
    parseOpt_rt rt_lengthOrFraction, parseOpt_rt rt_bool,
    parseOpt_rt (fun f => rt_opForm f)]

theorem rt_resolvedOperator (o : ResolvedOperator) :
    deserResolvedOperator (serResolvedOperator o) = some o := by
  obtain ⟨t, form, ms, mns, ls, rs, st, sy, lo, ml, se, fe⟩ := o
  simp [serResolvedOperator, deserResolvedOperator, reqField,
    getField_cons_self, getField_cons_ne, getField_nil,
    parseReq_some, rt_char, rt_length, rt_opForm, rt_bool]

theorem rt_dataMap (m : List (String × Value)) : deserDataMap (Value.map m) = some m := rfl

theorem rt_attributes (a : Attributes) : deserAttributes (serAttributes a) = some a := by
  obtain ⟨cls, rtl, ds, va, sl, da⟩ := a
  cases cls <;> cases rtl <;>
    simp [serAttributes, deserAttributes, optField, defField, seqEntry, flagEntry,
      seqElide, boolElide,
      getField_optEntry_ne, getField_optEntry_self, getField_optEntry_last_ne,
      getField_optEntry_last_self, getField_cons_self, getField_cons_ne, getField_nil,
      parseDef_some, parseDef_none,
      parseOpt_rt rt_bool, parseOpt_rt rt_variant, parseOpt_rt rt_scriptLevel,
      parseOpt_rt rt_dataMap, deserStrArr, rt_bool, deserBool,
      deserStringList, deserString, rt_stringList]

/-! ## Positivity of sizes -/

theorem one_le_sizeOf_option {α : Type} [SizeOf α] (o : Option α) : 1 ≤ sizeOf o := by
  cases o <;> simp_arith

theorem one_le_sizeOf_list {α : Type} [SizeOf α] (l : List α) : 1 ≤ sizeOf l := by
  cases l <;> simp_arith

theorem one_le_sizeOf_element (el : Element) : 1 ≤ sizeOf el := by
  cases el; simp_arith

theorem one_le_sizeOf_mathElement (m : MathElement) : 1 ≤ sizeOf m := by
  cases m <;> simp_arith

theorem one_le_sizeOf_padding (p : Padding) : 1 ≤ sizeOf p := by
  cases p; simp_arith

theorem one_le_sizeOf_tableRow (r : TableRow) : 1 ≤ sizeOf r := by
  cases r; simp_arith

theorem one_le_sizeOf_tableCell (c : TableCell) : 1 ≤ sizeOf c := by
  cases c; simp_arith

theorem one_le_sizeOf_pair (p : Pair) : 1 ≤ sizeOf p := by
  cases p; simp_arith

/-! ## Emptiness of serialized lists mirrors the model lists -/

theorem serElementList_isEmpty (l : List Element) :
    (serElementList l).isEmpty = l.isEmpty := by
  cases l <;> simp [serElementList]

theorem serPairList_isEmpty (l : List Pair) :
    (serPairList l).isEmpty = l.isEmpty := by
  cases l <;> simp [serPairList]

theorem serTableCellList_isEmpty (l : List TableCell) :
    (serTableCellList l).isEmpty = l.isEmpty := by
  cases l <;> simp [serTableCellList]

/-! ## The serialization/deserialization round trip -/

mutual

theorem rt_element : ∀ (el : Element) (fuel : Nat), sizeOf el ≤ fuel →
    deserElement fuel (serElement el) = some el
  | el, 0, h => absurd h (by have := one_le_sizeOf_element el; omega)
  | .mk e a, fuel + 1, h => by
    have he : sizeOf e ≤ fuel := by
      simp only [Element.mk.sizeOf_spec] at h
      have := one_le_sizeOf_option a
      omega
    have ihm := rt_mathElement e fuel he
    cases a <;>
      simp [serElement, deserElement, ihm, rt_attributes,
        getField_cons_self, getField_cons_ne, getField_optEntry_last_self,
        getField_optEntry_last_ne, getField_nil]

theorem rt_mathElement : ∀ (m : MathElement) (fuel : Nat), sizeOf m ≤ fuel →
    deserMathElement fuel (serMathElement m) = some m
  | m, 0, h => absurd h (by have := one_le_sizeOf_mathElement m; omega)
  | .Op c, fuel + 1, _ => by
    simp [serMathElement, deserMathElement, rt_char]
  | .Oper o, fuel + 1, _ => by
    simp [serMathElement, deserMathElement, rt_operator]
  | .ResolvedOper o, fuel + 1, _ => by
    simp [serMathElement, deserMathElement, rt_resolvedOperator]
  | .Text s, fuel + 1, _ => by
    simp [serMathElement, deserMathElement, deserString]
  | .Id t normal, fuel + 1, _ => by
    simp [serMathElement, deserMathElement, reqField, defField, flagEntry,
      getField_cons_self, getField_cons_ne, getField_optEntry_last_self,
      getField_optEntry_last_ne, getField_nil,
      parseReq_some, parseDef_flag, deserString]
  | .Num s, fuel + 1, _ => by
    simp [serMathElement, deserMathElement, deserString]
  | .Err s, fuel + 1, _ => by
    simp [serMathElement, deserMathElement, deserString]
  | .Space s, fuel + 1, _ => by
    simp [serMathElement, deserMathElement, rt_space]
  | .Str s, fuel + 1, _ => by
    simp [serMathElement, deserMathElement, deserString]
  | .Phantom elems, fuel + 1, h => by
    have ih := rt_elementList elems fuel (by
      simp only [MathElement.Phantom.sizeOf_spec] at h; omega)
    simp [serMathElement, deserMathElement, ih]
  | .Row elems, fuel + 1, h => by
    have ih := rt_elementList elems fuel (by
      simp only [MathElement.Row.sizeOf_spec] at h; omega)
    simp [serMathElement, deserMathElement, ih]
  | .Padding p, fuel + 1, h => by
    have ih := rt_padding p fuel (by
      simp only [MathElement.Padding.sizeOf_spec] at h; omega)
    simp [serMathElement, deserMathElement, ih]
  | .Frac lt num den, fuel + 1, h => by
    simp only [MathElement.Frac.sizeOf_spec] at h
    have hlt := one_le_sizeOf_option lt
    have hnum := one_le_sizeOf_element num
    have hden := one_le_sizeOf_element den
    obtain ⟨g, rfl⟩ : ∃ g, fuel = g + 1 := ⟨fuel - 1, by omega⟩
    have ihnum := rt_element num g (by omega)
    have ihden := rt_element den g (by omega)
    simp [serMathElement, deserMathElement, deserElemField, optField,
      getField_cons_self, getField_cons_ne, getField_optEntry_self,
      getField_optEntry_ne, getField_optEntry_last_self, getField_optEntry_last_ne,
      getField_nil, parseOpt_rt rt_f32, ihnum, ihden]
  | .Sqrt e, fuel + 1, h => by
    have ih := rt_element e fuel (by
      simp only [MathElement.Sqrt.sizeOf_spec] at h; omega)
    simp [serMathElement, deserMathElement, ih]
  | .Root base index, fuel + 1, h => by
    simp only [MathElement.Root.sizeOf_spec] at h
    have h1 := one_le_sizeOf_element base
    have h2 := one_le_sizeOf_element index
    obtain ⟨g, rfl⟩ : ∃ g, fuel = g + 1 := ⟨fuel - 1, by omega⟩
    have ihb := rt_element base g (by omega)
    have ihi := rt_element index g (by omega)
    simp [serMathElement, deserMathElement, deserElemField,
      getField_cons_self, getField_cons_ne, getField_nil, ihb, ihi]
  | .Sup base sup, fuel + 1, h => by
    simp only [MathElement.Sup.sizeOf_spec] at h
    have h1 := one_le_sizeOf_element base
    have h2 := one_le_sizeOf_element sup
    obtain ⟨g, rfl⟩ : ∃ g, fuel = g + 1 := ⟨fuel - 1, by omega⟩
    have ihb := rt_element base g (by omega)
    have ihs := rt_element sup g (by omega)
    simp [serMathElement, deserMathElement, deserElemField,
      getField_cons_self, getField_cons_ne, getField_nil, ihb, ihs]
  | .Sub base sub, fuel + 1, h => by
    simp only [MathElement.Sub.sizeOf_spec] at h
    have h1 := one_le_sizeOf_element base
    have h2 := one_le_sizeOf_element sub
    obtain ⟨g, rfl⟩ : ∃ g, fuel = g + 1 := ⟨fuel - 1, by omega⟩
    have ihb := rt_element base g (by omega)
    have ihs := rt_element sub g (by omega)
    simp [serMathElement, deserMathElement, deserElemField,
      getField_cons_self, getField_cons_ne, getField_nil, ihb, ihs]
  | .SubSup base sub sup, fuel + 1, h => by
    simp only [MathElement.SubSup.sizeOf_spec] at h
    have h1 := one_le_sizeOf_element base
    have h2 := one_le_sizeOf_element sub
    have h3 := one_le_sizeOf_element sup
    obtain ⟨g, rfl⟩ : ∃ g, fuel = g + 1 := ⟨fuel - 1, by omega⟩
    have ihb := rt_element base g (by omega)
    have ih2 := rt_element sub g (by omega)
    have ih3 := rt_element sup g (by omega)
    simp [serMathElement, deserMathElement, deserElemField,
      getField_cons_self, getField_cons_ne, getField_nil, ihb, ih2, ih3]
  | .Over base over accent, fuel + 1, h => by
    simp only [MathElement.Over.sizeOf_spec] at h
    have h1 := one_le_sizeOf_element base
    have h2 := one_le_sizeOf_element over
    obtain ⟨g, rfl⟩ : ∃ g, fuel = g + 1 := ⟨fuel - 1, by omega⟩
    have ihb := rt_element base g (by omega)
    have iho := rt_element over g (by omega)
    simp [serMathElement, deserMathElement, deserElemField, defField, flagEntry,
      getField_cons_self, getField_cons_ne, getField_optEntry_last_self,
      getField_optEntry_last_ne, getField_nil, parseDef_flag, ihb, iho]
  | .Under base under accent_under, fuel + 1, h => by
    simp only [MathElement.Under.sizeOf_spec] at h
    have h1 := one_le_sizeOf_element base
    have h2 := one_le_sizeOf_element under
    obtain ⟨g, rfl⟩ : ∃ g, fuel = g + 1 := ⟨fuel - 1, by omega⟩
    have ihb := rt_element base g (by omega)
    have ihu := rt_element under g (by omega)
    simp [serMathElement, deserMathElement, deserElemField, defField, flagEntry,
      getField_cons_self, getField_cons_ne, getField_optEntry_last_self,
      getField_optEntry_last_ne, getField_nil, parseDef_flag, ihb, ihu]
  | .UnderOver base under over accent accent_under, fuel + 1, h => by
    simp only [MathElement.UnderOver.sizeOf_spec] at h
    have h1 := one_le_sizeOf_element base
    have h2 := one_le_sizeOf_element under
    have h3 := one_le_sizeOf_element over
    obtain ⟨g, rfl⟩ : ∃ g, fuel = g + 1 := ⟨fuel - 1, by omega⟩
    have ihb := rt_element base g (by omega)
    have ihu := rt_element under g (by omega)
    have iho := rt_element over g (by omega)
    simp [serMathElement, deserMathElement, deserElemField, defField, flagEntry,
      getField_cons_self, getField_cons_ne, getField_optEntry_self,
      getField_optEntry_ne, getField_optEntry_last_self, getField_optEntry_last_ne,
      getField_nil, parseDef_flag, ihb, ihu, iho]
  | .MultiScript base post pre, fuel + 1, h => by
    simp only [MathElement.MultiScript.sizeOf_spec] at h
    have h1 := one_le_sizeOf_element base
    have h2 := one_le_sizeOf_list post
    have h3 := one_le_sizeOf_list pre
    obtain ⟨g, rfl⟩ : ∃ g, fuel = g + 1 := ⟨fuel - 1, by omega⟩
    have ihb := rt_element base g (by omega)
    have ihpost := rt_pairList post g (by omega)
    have ihpre := rt_pairList pre g (by omega)
    cases post <;> cases pre <;>
      simp_all [serMathElement, deserMathElement, deserElemField, deserPairsField,
        seqEntry, seqElide, serPairList_isEmpty,
        getField_cons_self, getField_cons_ne, getField_optEntry_self,
        getField_optEntry_ne, getField_optEntry_last_self, getField_optEntry_last_ne,
        getField_nil]
  | .Table rows, fuel + 1, h => by
    have ih := rt_tableRowList rows fuel (by
      simp only [MathElement.Table.sizeOf_spec] at h; omega)
    simp [serMathElement, deserMathElement, getField_cons_self, ih]

theorem rt_padding : ∀ (p : Padding) (fuel : Nat), sizeOf p ≤ fuel →
    deserPadding fuel (serPadding p) = some p
  | p, 0, h => absurd h (by have := one_le_sizeOf_padding p; omega)
  | .mk elems w hh d l vo, fuel + 1, h => by
    simp only [Padding.mk.sizeOf_spec] at h
    have h1 := one_le_sizeOf_option w
    have h2 := one_le_sizeOf_option hh
    have h3 := one_le_sizeOf_option d
    have h4 := one_le_sizeOf_option l
    have h5 := one_le_sizeOf_option vo
    obtain ⟨g, rfl⟩ : ∃ g, fuel = g + 1 := ⟨fuel - 1, by omega⟩
    have ihel := rt_elementList elems g (by omega)
    cases elems <;>
      simp_all [serPadding, deserPadding, deserElemsField, seqEntry, seqElide,
        serElementList_isEmpty, optField,
        getField_cons_self, getField_cons_ne, getField_optEntry_self,
        getField_optEntry_ne, getField_optEntry_last_self, getField_optEntry_last_ne,
        getField_nil, parseOpt_rt rt_length]

theorem rt_tableRow : ∀ (r : TableRow) (fuel : Nat), sizeOf r ≤ fuel →
    deserTableRow fuel (serTableRow r) = some r
  | r, 0, h => absurd h (by have := one_le_sizeOf_tableRow r; omega)
  | .mk cells a, fuel + 1, h => by
    simp only [TableRow.mk.sizeOf_spec] at h
    have h1 := one_le_sizeOf_option a
    obtain ⟨g, rfl⟩ : ∃ g, fuel = g + 1 := ⟨fuel - 1, by omega⟩
    have ihc := rt_tableCellList cells g (by omega)
    cases cells <;>
      simp_all [serTableRow, deserTableRow, deserCellsField, seqEntry, seqElide,
        serTableCellList_isEmpty, optField,
        getField_cons_self, getField_cons_ne, getField_optEntry_self,
        getField_optEntry_ne, getField_optEntry_last_self, getField_optEntry_last_ne,
        getField_nil, parseOpt_rt rt_attributes]

theorem rt_tableCell : ∀ (c : TableCell) (fuel : Nat), sizeOf c ≤ fuel →
    deserTableCell fuel (serTableCell c) = some c
  | c, 0, h => absurd h (by have := one_le_sizeOf_tableCell c; omega)
  | .mk cs rs elems a, fuel + 1, h => by
    simp only [TableCell.mk.sizeOf_spec] at h
    have h1 := one_le_sizeOf_option a
    have h2 := one_le_sizeOf_list elems
    obtain ⟨g, rfl⟩ : ∃ g, fuel = g + 1 := ⟨fuel - 1, by omega⟩
    have ihel := rt_elementList elems g (by omega)
    cases elems <;>
      simp_all [serTableCell, deserTableCell, deserElemsField, seqEntry, seqElide,
        spanEntry, serElementList_isEmpty, optField, defField,
        getField_cons_self, getField_cons_ne, getField_optEntry_self,
        getField_optEntry_ne, getField_optEntry_last_self, getField_optEntry_last_ne,
        getField_nil, parseDef_span, parseOpt_rt rt_attributes]

theorem rt_pair : ∀ (p : Pair) (fuel : Nat), sizeOf p ≤ fuel →
    deserPair fuel (serPair p) = some p
  | p, 0, h => absurd h (by have := one_le_sizeOf_pair p; omega)
  | .mk sup sub, fuel + 1, h => by
    simp only [Pair.mk.sizeOf_spec] at h
    have h1 := one_le_sizeOf_element sup
    have h2 := one_le_sizeOf_element sub
    obtain ⟨g, rfl⟩ : ∃ g, fuel = g + 1 := ⟨fuel - 1, by omega⟩
    have ihs := rt_element sup g (by omega)
    have ihb := rt_element sub g (by omega)
    simp [serPair, deserPair, deserElemField,
      getField_cons_self, getField_cons_ne, getField_nil, ihs, ihb]

theorem rt_elementList : ∀ (l : List Element) (fuel : Nat), sizeOf l ≤ fuel →
    deserElementList fuel (serElementList l) = some l
  | l, 0, h => absurd h (by have := one_le_sizeOf_list l; omega)
  | [], fuel + 1, _ => by simp [serElementList, deserElementList]
  | e :: es, fuel + 1, h => by
    simp only [List.cons.sizeOf_spec] at h
    have ih1 := rt_element e fuel (by omega)
    have ih2 := rt_elementList es fuel (by omega)
    simp [serElementList, deserElementList, ih1, ih2]

theorem rt_pairList : ∀ (l : List Pair) (fuel : Nat), sizeOf l ≤ fuel →
    deserPairList fuel (serPairList l) = some l
  | l, 0, h => absurd h (by have := one_le_sizeOf_list l; omega)
  | [], fuel + 1, _ => by simp [serPairList, deserPairList]
  | p :: ps, fuel + 1, h => by
    simp only [List.cons.sizeOf_spec] at h
    have ih1 := rt_pair p fuel (by omega)
    have ih2 := rt_pairList ps fuel (by omega)
    simp [serPairList, deserPairList, ih1, ih2]

theorem rt_tableRowList : ∀ (l : List TableRow) (fuel : Nat), sizeOf l ≤ fuel →
    deserTableRowList fuel (serTableRowList l) = some l
  | l, 0, h => absurd h (by have := one_le_sizeOf_list l; omega)
  | [], fuel + 1, _ => by simp [serTableRowList, deserTableRowList]
  | r :: rs, fuel + 1, h => by
    simp only [List.cons.sizeOf_spec] at h
    have ih1 := rt_tableRow r fuel (by omega)
    have ih2 := rt_tableRowList rs fuel (by omega)
    simp [serTableRowList, deserTableRowList, ih1, ih2]

theorem rt_tableCellList : ∀ (l : List TableCell) (fuel : Nat), sizeOf l ≤ fuel →
    deserTableCellList fuel (serTableCellList l) = some l
  | l, 0, h => absurd h (by have := one_le_sizeOf_list l; omega)
  | [], fuel + 1, _ => by simp [serTableCellList, deserTableCellList]
  | c :: cs, fuel + 1, h => by
    simp only [List.cons.sizeOf_spec] at h
    have ih1 := rt_tableCell c fuel (by omega)
    have ih2 := rt_tableCellList cs fuel (by omega)
    simp [serTableCellList, deserTableCellList, ih1, ih2]

end

/-! ## The claims -/

/-- C1: Schema soundness — **the code violates the claim**.  The claim states
that every serialized document tree validates against the compiled schema.
In fact the Element type fragment does accept an ordinary serialized element
(first conjunct), but the document-root validator built by `schema_doc()` is
an array validator whose items validator is an enum with no variants, so the
serialized form of any tree is rejected at the document root (second
conjunct); moreover the `Table` variant serializes as a map `{rows: [...]}`
while the schema's `Table` alternative expects a bare array, so even the
Element fragment rejects any tree containing a `Table` node (third
conjunct). -/
theorem c1_soundness_violated :
    validateType "Element" 20 (serElement (numElem "1")) = true
    ∧ validateDoc (serElement (numElem "1")) = false
    ∧ validateType "Element" 20 (serElement (.mk (.Table []) none)) = false :=
  ⟨by decide, by decide, by decide⟩

/-- C2: Schema completeness — the compiled schema rejects each listed
malformed document shape: an unknown enum tag, a `Frac` map missing the
required `den`, operator text of two characters, a negative span count in a
`TableCell`, and a `Sup` map missing the required `sup`. -/
theorem c2_schema_completeness :
    validateType "Element" 20 (.map [("e", .map [("Wedge", .str "x")])]) = false
    ∧ validateType "Element" 20
        (.map [("e", .map [("Frac", .map [("num", serElement (numElem "1"))])])]) = false
    ∧ validateType "Element" 20
        (.map [("e", .map [("Oper", .map [("t", .str "ab")])])]) = false
    ∧ validateType "TableCell" 20 (.map [("col_span", .int (-1))]) = false
    ∧ validateType "Element" 20
        (.map [("e", .map [("Sup", .map [("base", serElement (numElem "1"))])])]) = false :=
  ⟨by decide, by decide, by decide, by decide, by decide⟩

/-- C3: the top-level document validator is an array validator whose items
validator is an enum with no declared variants; consequently every value the
schema accepts at the document root is an array, and a lone serialized
Element map does not validate. -/
theorem c3_root_is_array_of_empty_enum :
    fogMathSchema.doc = .arrV (.enumV [])
    ∧ (∀ v : Value, validateDoc v = true → ∃ xs, v = Value.arr xs)
    ∧ validateDoc (serElement (numElem "1")) = false := by
  refine ⟨rfl, ?_, by decide⟩
  intro v h
  cases v with
  | arr xs => exact ⟨xs, rfl⟩
  | bool b => exact Bool.noConfusion h
  | int n => exact Bool.noConfusion h
  | f32 x => exact Bool.noConfusion h
  | str s => exact Bool.noConfusion h
  | map kvs => exact Bool.noConfusion h

/-- C3 witness: the empty array validates at the document root, and the
theorem instantiated there produces its array decomposition. -/
theorem c3_root_is_array_of_empty_enum_witness :
    ∃ xs, (Value.arr [] : Value) = Value.arr xs :=
  c3_root_is_array_of_empty_enum.2.1 (Value.arr []) (by decide)

/-- C4: enum exhaustiveness — the serializer emits exactly the tag
`mathElementTag m` for every `MathElement`; every such tag is a declared
alternative of the schema's `e` enum and the declared list equals the
model's constructor tags in order; the same holds for the 18 `Variant`
styles against the schema's `variant` membership set, and for the three
`OpForm` forms against the standalone `OpForm` type and both inline `form`
enums. -/
theorem c4_enum_exhaustiveness :
    ((∀ m : MathElement, ∃ p, serMathElement m = Value.map [(mathElementTag m, p)])
      ∧ (∀ m : MathElement, mathElementTag m ∈ enumTags elementEnum)
      ∧ enumTags elementEnum = mathElementReps.map mathElementTag)
    ∧ ((∀ v : Variant, serVariant v ∈ variantInSet)
      ∧ variantInSet = variantReps.map serVariant)
    ∧ ((∀ f : OpForm, serOpForm f ∈ enumTags opFormValidator)
      ∧ enumTags opFormValidator = opFormReps.map serOpForm
      ∧ operFormTags = opFormReps.map serOpForm
      ∧ resolvedOperFormTags = opFormReps.map serOpForm) := by
  refine ⟨⟨?_, ?_, by decide⟩, ⟨?_, by decide⟩, ⟨?_, by decide, by decide, by decide⟩⟩
  · intro m; cases m <;> exact ⟨_, rfl⟩
  · intro m; cases m <;> simp only [mathElementTag] <;> decide
  · intro v; cases v <;> simp only [serVariant] <;> decide
  · intro f; cases f <;> simp only [serOpForm] <;> decide

/-- C5: round trip — serializing any document tree and deserializing the
result (with fuel at least the tree's size; the fuel only makes the
recursion structural and any larger amount gives the same result) yields the
original tree.  Equality is plain structural equality: the deserializer
restores every elided default, so the elided and explicit-default forms
collapse to the same tree. -/
theorem c5_round_trip (el : Element) (fuel : Nat) (h : sizeOf el ≤ fuel) :
    deserElement fuel (serElement el) = some el :=
  rt_element el fuel h

/-- C5 witness: the concrete `Frac`-in-`Row` tree round-trips. -/
theorem c5_round_trip_witness :
    sizeOf c7doc ≤ 1000
    ∧ deserElement 1000 (serElement c7doc) = some c7doc :=
  ⟨by decide, c5_round_trip c7doc 1000 (by decide)⟩

/-- C6 counterexample: the claim as stated is false.  It says a
`ResolvedOper` with "all eleven required fields present" validates, but the
schema requires twelve fields (`t`, `form`, two sizes, two spacings, six
booleans): a map carrying only eleven of them (here: all but `fence`) is
rejected by the Element fragment, and even the complete twelve-field
structure fails validation "against the compiled schema" taken at the
document root, because the root validator rejects every document. -/
theorem c6_counterexample :
    validateType "Element" 20 (resolvedOperDoc (removeKey "fence" resolvedOperFields)) = false
    ∧ resolvedOperFields.length = 12
    ∧ validateDoc (resolvedOperDoc resolvedOperFields) = false :=
  ⟨by decide, by decide, by decide⟩

/-- C6 (amended): `resolvedOperFields` is exactly what the serializer emits
for a fully resolved operator; the Element type fragment of the compiled
schema accepts it, and omitting any single one of the twelve required fields
makes it reject. -/
theorem c6_resolved_oper_required_fields :
    serElement (.mk (.ResolvedOper sampleResolvedOperator) none)
      = resolvedOperDoc resolvedOperFields
    ∧ validateType "Element" 20 (resolvedOperDoc resolvedOperFields) = true
    ∧ (∀ k ∈ resolvedOperFields.map Prod.fst,
        validateType "Element" 20 (resolvedOperDoc (removeKey k resolvedOperFields)) = false) := by
  refine ⟨rfl, by decide, ?_⟩
  intro k hk
  fin_cases hk <;> decide

/-- C6 witness: instantiating the omission statement at the `form` field. -/
theorem c6_resolved_oper_required_fields_witness :
    validateType "Element" 20 (resolvedOperDoc (removeKey "form" resolvedOperFields)) = false :=
  c6_resolved_oper_required_fields.2.2 "form" (by decide)

/-- C7: the concrete `Frac` scenario — the serialized form is exactly the
stated map (key `e` holding `{Frac: {num:…, den:…}}`, with no
`line_thickness` key and no `a` key), and it validates against the schema's
Element type fragment; but at the document root the schema as built rejects
it, contradicting the claim's "validates successfully". -/
theorem c7_frac_scenario :
    serElement c7doc
      = Value.map [("e", Value.map [("Row", Value.arr
          [Value.map [("e", Value.map [("Frac", Value.map
            [("num", Value.map [("e", Value.map [("Num", Value.str "1")])]),
             ("den", Value.map [("e", Value.map [("Num", Value.str "2")])])])])]])])]
    ∧ validateType "Element" 20 (serElement c7doc) = true
    ∧ validateDoc (serElement c7doc) = false :=
  ⟨rfl, by decide, by decide⟩

/-- C8: default elision equivalence — for a `TableCell` with `col_span`
explicitly 1 versus omitted, and for each boolean flag at its `false`
default (`Id.normal`, `Over.accent`, `Under.accent_under`, both `UnderOver`
flags together, `Attributes.rtl`), the explicit-default and the elided
serialized forms both validate against the relevant type fragment and
deserialize to equal values. -/
theorem c8_default_elision :
    (validateType "TableCell" 20 (.map [("col_span", .int 1)]) = true
      ∧ validateType "TableCell" 20 (.map []) = true
      ∧ deserTableCell 20 (.map [("col_span", .int 1)]) = deserTableCell 20 (.map [])
      ∧ deserTableCell 20 (.map []) = some (.mk u32one u32one [] none))
    ∧ (validateType "Element" 20
          (.map [("e", .map [("Id", .map [("t", .str "f"), ("normal", .bool false)])])]) = true
      ∧ validateType "Element" 20
          (.map [("e", .map [("Id", .map [("t", .str "f")])])]) = true
      ∧ deserElement 20 (.map [("e", .map [("Id", .map [("t", .str "f"), ("normal", .bool false)])])])
          = deserElement 20 (.map [("e", .map [("Id", .map [("t", .str "f")])])])
      ∧ deserElement 20 (.map [("e", .map [("Id", .map [("t", .str "f")])])])
          = some (.mk (.Id "f" false) none))
    ∧ (validateType "Element" 20
          (.map [("e", .map [("Over", .map [("base", serElement (numElem "1")),
            ("over", serElement (numElem "2")), ("accent", .bool false)])])]) = true
      ∧ validateType "Element" 20
          (.map [("e", .map [("Over", .map [("base", serElement (numElem "1")),
            ("over", serElement (numElem "2"))])])]) = true
      ∧ deserElement 20 (.map [("e", .map [("Over", .map [("base", serElement (numElem "1")),
            ("over", serElement (numElem "2")), ("accent", .bool false)])])])
          = deserElement 20 (.map [("e", .map [("Over", .map [("base", serElement (numElem "1")),
            ("over", serElement (numElem "2"))])])])
      ∧ deserElement 20 (.map [("e", .map [("Over", .map [("base", serElement (numElem "1")),
            ("over", serElement (numElem "2"))])])])
          = some (.mk (.Over (numElem "1") (numElem "2") false) none))
    ∧ (validateType "Element" 20 (.map [("e", .map [("Under", .map [("base", serElement (numElem "1")),
            ("under", serElement (numElem "2")), ("accent_under", .bool false)])])]) = true
      ∧ validateType "Element" 20 (.map [("e", .map [("Under", .map [("base", serElement (numElem "1")),
            ("under", serElement (numElem "2"))])])]) = true
      ∧ deserElement 20 (.map [("e", .map [("Under", .map [("base", serElement (numElem "1")),
            ("under", serElement (numElem "2")), ("accent_under", .bool false)])])])
          = deserElement 20 (.map [("e", .map [("Under", .map [("base", serElement (numElem "1")),
            ("under", serElement (numElem "2"))])])])
      ∧ deserElement 20 (.map [("e", .map [("Under", .map [("base", serElement (numElem "1")),
            ("under", serElement (numElem "2"))])])])
          = some (.mk (.Under (numElem "1") (numElem "2") false) none))
    ∧ (validateType "Element" 20 (.map [("e", .map [("UnderOver", .map [("base", serElement (numElem "1")),
            ("under", serElement (numElem "2")), ("over", serElement (numElem "3")),
            ("accent", .bool false), ("accent_under", .bool false)])])]) = true
      ∧ validateType "Element" 20 (.map [("e", .map [("UnderOver", .map [("base", serElement (numElem "1")),
            ("under", serElement (numElem "2")), ("over", serElement (numElem "3"))])])]) = true
      ∧ deserElement 20 (.map [("e", .map [("UnderOver", .map [("base", serElement (numElem "1")),
            ("under", serElement (numElem "2")), ("over", serElement (numElem "3")),
            ("accent", .bool false), ("accent_under", .bool false)])])])
          = deserElement 20 (.map [("e", .map [("UnderOver", .map [("base", serElement (numElem "1")),
            ("under", serElement (numElem "2")), ("over", serElement (numElem "3"))])])])
      ∧ deserElement 20 (.map [("e", .map [("UnderOver", .map [("base", serElement (numElem "1")),
            ("under", serElement (numElem "2")), ("over", serElement (numElem "3"))])])])
          = some (.mk (.UnderOver (numElem "1") (numElem "2") (numElem "3") false false) none))
    ∧ (validateType "Attributes" 20 (.map [("rtl", .bool false)]) = true
      ∧ validateType "Attributes" 20 (.map []) = true
      ∧ deserAttributes (.map [("rtl", .bool false)]) = deserAttributes (.map [])
      ∧ deserAttributes (.map []) = some ⟨[], false, none, none, none, none⟩) :=
  ⟨⟨by decide, by decide, rfl, rfl⟩,
   ⟨by decide, by decide, rfl, rfl⟩,
   ⟨by decide, by decide, rfl, rfl⟩,
   ⟨by decide, by decide, rfl, rfl⟩,
   ⟨by decide, by decide, rfl, rfl⟩,
   ⟨by decide, by decide, rfl, rfl⟩⟩

/-- C9 counterexample: the claim says a zero-character string is rejected
for character-valued fields, but the schema constrains them only with
`max_char(1)` and no minimum, so the empty string is accepted as an `Op`
payload by the Element fragment. -/
theorem c9_counterexample :
    validateType "Element" 20 (.map [("e", .map [("Op", .str "")])]) = true := by
  decide

/-- C9 (amended): character-valued fields (`Op` payload, `Oper.t`,
`ResolvedOper.t`) are constrained to at most one character: every string of
two or more characters is rejected, but the empty string is accepted. -/
theorem c9_char_fields_max_one :
    (∀ (c₁ c₂ : Char) (rest : List Char),
      validateType "Element" 20
        (.map [("e", .map [("Op", .str (String.mk (c₁ :: c₂ :: rest)))])]) = false)
    ∧ (∀ (c₁ c₂ : Char) (rest : List Char),
      validateType "Element" 20
        (.map [("e", .map [("Oper", .map [("t", .str (String.mk (c₁ :: c₂ :: rest)))])])]) = false)
    ∧ (∀ (c₁ c₂ : Char) (rest : List Char),
      validateType "Element" 20
        (resolvedOperDoc (("t", .str (String.mk (c₁ :: c₂ :: rest)))
          :: removeKey "t" resolvedOperFields)) = false)
    ∧ validateType "Element" 20 (.map [("e", .map [("Op", .str "")])]) = true :=
  ⟨fun _ _ _ => rfl, fun _ _ _ => rfl, fun _ _ _ => rfl, by decide⟩

/-- C10: schema construction succeeds — every named reference used anywhere
in the compiled schema resolves to a registered type, and the registered
type names are distinct, so compiling the fixed schema definition cannot
fail on an unresolved or duplicated type fragment. -/
theorem c10_schema_construction_succeeds :
    (∀ r ∈ schemaAllRefs, r ∈ schemaTypeNames) ∧ schemaTypeNames.Nodup := by
  refine ⟨?_, by decide⟩
  intro r hr
  fin_cases hr <;> decide

/-- C10 witness: the `Element` reference resolves. -/
theorem c10_schema_construction_succeeds_witness :
    "Element" ∈ schemaTypeNames :=
  c10_schema_construction_succeeds.1 "Element" (by decide)

end FogMath
